import Mathlib

/-!
Shallow embedding of `src/Pothole-report-system/app.py` (a Flask pothole
reporting service) and proofs about its route handlers.

Modelling conventions:
* The relational state is a `DB` structure holding the three tables
  (`custom_user`, `pothole_report`, `municipal_verification`) as lists of
  rows, in insertion order.  ORM mutations on the first object returned by
  `filter_by(...).first()` are modelled as updates to the first matching
  list element; `db.session.commit()` is the point where the new `DB`
  value is returned, and an exception before commit returns the original
  `DB` (Flask-SQLAlchemy rolls the pending session back at teardown).
* Timestamp columns (`created_at`, `updated_at`, `verification_date`) are
  omitted: no claim involves time.
* Nondeterministic inputs (uuid4 values, password-hash salts, S3 and
  presigning outcomes) are explicit parameters of the handlers.
* Python `float(s)` on a form string either yields a value or raises
  `ValueError`; we model a form coordinate field as `Option FormFloat`,
  where `none` is an absent-or-empty field (both are falsy in
  `request.form.get('latitude')`) and `FormFloat` records whether the
  string parses.  The parsed value is carried as a `Rat`: no claim does
  float arithmetic, only presence/absence and pass-through matter.
* A handler returns `HttpResult × DB`.  `HttpResult.raised` models a
  Python exception escaping the route function uncaught (Flask then
  produces its generic 500, not the route's JSON body).
* MySQL schema constraints declared in the models and enforced at commit
  are modelled where the application does not pre-check them:
  UNIQUE(username), UNIQUE(email), UNIQUE(user_id) on `custom_user`;
  UNIQUE(report_id), NOT NULL + enum domain on `severity`, and the enum
  domain of `status` on `pothole_report` (MySQL strict mode rejects
  invalid enum values).
-/

/-- Row of the `custom_user` table. -/
structure User where
  user_id : String
  username : String
  email : String
  phone_number : Option String
  password_hash : String
  credits : Int
  is_staff : Bool
deriving Repr, DecidableEq

/-- A `latitude`/`longitude` form string as seen by Python `float`:
either it parses to a value or `float` raises `ValueError`. -/
inductive FormFloat where
  | valid (q : Rat)
  | invalid (s : String)
deriving Repr, DecidableEq

/-- Row of the `pothole_report` table. -/
structure Report where
  report_id : String
  user_id : String
  image_url : String
  s3_bucket_path : String
  description : Option String
  location_name : Option String
  latitude : Option Rat
  longitude : Option Rat
  severity : Option String
  status : String
  credits_awarded : Int
deriving Repr, DecidableEq

/-- Row of the `municipal_verification` table.  `estimated_repair_date`
holds the `%Y-%m-%d` string that parsed, or `none`. -/
structure Verification where
  report_id : String
  verified_by : String
  verification_status : String
  verification_notes : String
  estimated_repair_date : Option String
deriving Repr, DecidableEq

/-- The database state: the three tables in insertion order. -/
structure DB where
  users : List User
  reports : List Report
  verifications : List Verification
deriving Repr, DecidableEq

/-- Result of a route handler.  `raised` is an uncaught Python exception
escaping the route function (Flask's generic 500 page, not a route-level
JSON body). -/
inductive HttpResult where
  | ok (code : Nat) (body : String)
  | jsonError (code : Nat) (msg : String)
  | raised (exc : String)
deriving Repr, DecidableEq

/-- Whether an uncaught exception escaped the handler. -/
def HttpResult.isRaised : HttpResult → Bool
  | .raised _ => true
  | _ => false

/-- `CustomUser.query.filter_by(user_id=uid).first()`. -/
def findUser (db : DB) (uid : String) : Option User :=
  db.users.find? (fun u => u.user_id == uid)

/-- `CustomUser.query.filter_by(username=n).first()`. -/
def findUserByUsername (db : DB) (n : String) : Option User :=
  db.users.find? (fun u => u.username == n)

/-- `PotholeReport.query.filter_by(report_id=rid).first()`. -/
def findReport (db : DB) (rid : String) : Option Report :=
  db.reports.find? (fun r => r.report_id == rid)

/-- `user.credits += d` on the first user matching `uid` (the object
returned by `.first()`), leaving every other row untouched. -/
def creditFirstUser (us : List User) (uid : String) (d : Int) : List User :=
  match us with
  | [] => []
  | u :: rest =>
    if u.user_id == uid then { u with credits := u.credits + d } :: rest
    else u :: creditFirstUser rest uid d

/-- `report.status = st` on the first report matching `rid`. -/
def setFirstReportStatus (rs : List Report) (rid : String) (st : String) :
    List Report :=
  match rs with
  | [] => []
  | r :: rest =>
    if r.report_id == rid then { r with status := st } :: rest
    else r :: setFirstReportStatus rest rid st

/-- The `severity_enum` MySQL enum domain. -/
def severityEnum : List String := ["LOW", "MEDIUM", "HIGH", "CRITICAL"]

/-- The `status_enum` MySQL enum domain. -/
def statusEnum : List String :=
  ["PENDING", "VERIFIED", "REJECTED", "IN_PROGRESS", "COMPLETED"]

/-- Environment configuration (`AWS_BUCKET_NAME`), an external
collaborator; its value never matters to a claim. -/
def AWS_BUCKET_NAME : String := "bucket"

/-- Environment configuration (`AWS_REGION`). -/
def AWS_REGION : String := "region"

/-- Outcome of `s3_client.upload_fileobj`: success, the
`NoCredentialsError` that `upload_to_s3`'s `except` clause handles, or
any other exception (for example a connectivity failure), which nothing
in `upload_to_s3` or `report_pothole` catches. -/
inductive S3Outcome where
  | success
  | noCredentials
  | otherFailure (exc : String)
deriving Repr, DecidableEq

/-- `upload_to_s3(file, filename)`: on success returns the public URL and
the key `pothole-images/<filename>`; on `NoCredentialsError` returns
`(None, None)`, modelled as `.ok none`; any other exception from
`upload_fileobj` is not caught by the `except NoCredentialsError` clause
and propagates out of the function, modelled as `.error`. -/
def upload_to_s3 (outcome : S3Outcome) (filename : String) :
    Except String (Option (String × String)) :=
  match outcome with
  | .success =>
    let s3_key := "pothole-images/" ++ filename
    .ok (some ("https://" ++ AWS_BUCKET_NAME ++ ".s3." ++ AWS_REGION
            ++ ".amazonaws.com/" ++ s3_key, s3_key))
  | .noCredentials => .ok none
  | .otherFailure exc => .error exc

/-- `url_for('serve_image', s3_key=k, _external=True)`; the host part is
environment configuration and never matters to a claim. -/
def localImageUrl (k : String) : String := "http://host/image/" ++ k

/-- Python `float` applied to the content of a present, non-empty form
field: the parsed value or a `ValueError`. -/
def pyFloat : FormFloat → Except String Rat
  | .valid q => .ok q
  | .invalid s =>
    .error ("ValueError: could not convert string to float: " ++ s)

/-- `float(request.form.get(f)) if request.form.get(f) else None`:
absent or empty field gives `None`; otherwise `float` parses or raises. -/
def parseCoord : Option FormFloat → Except String (Option Rat)
  | none => .ok none
  | some f => (pyFloat f).map some

/-- The multipart request body of `POST /report-pothole`.
`hasImageField` is `'image' in request.files`; `imageFilename` is
`file.filename` (`""` when no file was selected); coordinate fields are
`none` when absent or empty (both falsy). -/
structure ReportRequest where
  hasImageField : Bool
  imageFilename : String
  description : Option String
  location_name : Option String
  latitude : Option FormFloat
  longitude : Option FormFloat
  severity : Option String
deriving Repr, DecidableEq

/-- The `PotholeReport(...)` constructor call inside `report_pothole`,
with the already-parsed coordinates and the generated ids. -/
def builtReport (sessionUserId : String) (req : ReportRequest)
    (s3_key : String) (freshReportId : String) (lat lon : Option Rat) :
    Report :=
  { report_id := freshReportId
    user_id := sessionUserId
    image_url := localImageUrl s3_key
    s3_bucket_path := s3_key
    description := req.description
    location_name := req.location_name
    latitude := lat
    longitude := lon
    severity := req.severity
    status := "PENDING"
    credits_awarded := 5 }

/-- `report_pothole` (POST branch, after `login_required` admitted the
session).  `sessionUserId` is `session['user_id']`; `freshUuid` the
`uuid.uuid4()` used in the filename (werkzeug's `secure_filename`
sanitisation is not modelled: no claim inspects the filename);
`freshReportId` the uuid4 default of `PotholeReport.report_id`.
Commit-time MySQL checks modelled: severity NOT NULL, severity enum
domain, report_id uniqueness. -/
def report_pothole (db : DB) (sessionUserId : String) (req : ReportRequest)
    (s3 : S3Outcome) (freshUuid : String) (freshReportId : String) :
    HttpResult × DB :=
  if !req.hasImageField then (.jsonError 400 "No image file provided", db)
  else if req.imageFilename == "" then (.jsonError 400 "No file selected", db)
  else
    let filename := freshUuid ++ "_" ++ req.imageFilename
    match upload_to_s3 s3 filename with
    | .error e =>
      -- An exception other than NoCredentialsError escapes uncaught.
      (.raised e, db)
    | .ok none => (.jsonError 500 "Failed to upload image", db)
    | .ok (some (_, s3_key)) =>
      -- `PotholeReport(...)` construction: float() may raise ValueError,
      -- which escapes the route uncaught.
      match parseCoord req.latitude with
      | .error e => (.raised e, db)
      | .ok lat =>
        match parseCoord req.longitude with
        | .error e => (.raised e, db)
        | .ok lon =>
          let report := builtReport sessionUserId req s3_key freshReportId lat lon
          -- `user.credits += 5`: AttributeError if the session user row
          -- is gone (escapes uncaught, session rolled back at teardown).
          match findUser db sessionUserId with
          | none => (.raised "AttributeError: credits of None", db)
          | some _ =>
            -- `db.session.commit()`: MySQL constraint checks.
            match req.severity with
            | none => (.raised "IntegrityError: severity may not be NULL", db)
            | some sev =>
              if !(severityEnum.contains sev) then
                (.raised "DataError: invalid severity enum value", db)
              else if db.reports.any (fun r => r.report_id == freshReportId) then
                (.raised "IntegrityError: duplicate report_id", db)
              else
                (.ok 201 freshReportId,
                  { db with
                      reports := db.reports ++ [report]
                      users := creditFirstUser db.users sessionUserId 5 })

/-- An `estimated_repair_date` JSON value as seen by
`datetime.strptime(s, '%Y-%m-%d')`: parses or raises `ValueError`
(which the inner `try` swallows). -/
inductive DateInput where
  | valid (d : String)
  | invalid (s : String)
deriving Repr, DecidableEq

/-- The JSON body of `POST /api/verify-report`.  A field is `none` when
the key is absent (`data[k]` then raises `KeyError`, `data.get(k, d)`
returns the default). -/
structure VerifyRequest where
  report_id : Option String
  action : Option String
  verified_by : Option String
  notes : Option String
  estimated_repair_date : Option DateInput
deriving Repr, DecidableEq

/-- The `action_mapping` dict lookup `action_mapping.get(a, 'APPROVED')`. -/
def actionMapping (a : String) : String :=
  if a == "approve" then "APPROVED"
  else if a == "reject" then "REJECTED"
  else if a == "need_info" then "NEED_INFO"
  else "APPROVED"

/-- The `MunicipalVerification(...)` constructor call inside
`verify_report`. -/
def builtVerification (sessionUsername : Option String) (d : VerifyRequest)
    (reportId action : String) : Verification :=
  { report_id := reportId
    verified_by := d.verified_by.getD (sessionUsername.getD "Unknown")
    verification_status := actionMapping action
    verification_notes := d.notes.getD ""
    estimated_repair_date :=
      match d.estimated_repair_date with
      | some (.valid s) => some s
      | _ => none }

/-- `verify_report` (after `staff_required` admitted the session).  The
whole body runs inside `try/except`: any exception becomes a rollback
plus a JSON 500, never an uncaught escape.  `data = none` models
`request.get_json()` returning `None`; `sessionUsername` is
`session.get('username')`.  `verificationCreateFails` models an
exception raised while creating/committing the `MunicipalVerification`
row (the claimed rollback point). -/
def verify_report (db : DB) (sessionUsername : Option String)
    (data : Option VerifyRequest) (verificationCreateFails : Bool) :
    HttpResult × DB :=
  match data with
  | none => (.jsonError 400 "No data provided", db)
  | some d =>
    match d.report_id with
    | none =>
      -- KeyError on data['report_id'], caught by the route's except.
      (.jsonError 500 "Failed to update report: KeyError", db)
    | some rid =>
      match findReport db rid with
      | none => (.jsonError 404 "Report not found", db)
      | some report =>
        match d.action with
        | none =>
          -- KeyError on data['action'], caught; nothing mutated yet.
          (.jsonError 500 "Failed to update report: KeyError", db)
        | some action =>
          let db1 :=
            if action == "approve" then
              let dbS :=
                { db with reports := setFirstReportStatus db.reports rid "VERIFIED" }
              match findUser db report.user_id with
              | some _ =>
                { dbS with users := creditFirstUser dbS.users report.user_id 10 }
              | none => dbS
            else if action == "reject" then
              { db with reports := setFirstReportStatus db.reports rid "REJECTED" }
            else if action == "need_info" then
              { db with reports := setFirstReportStatus db.reports rid "PENDING" }
            else db
          let verification := builtVerification sessionUsername d report.report_id action
          if verificationCreateFails then
            -- except: db.session.rollback() discards every pending change.
            (.jsonError 500 "Failed to update report", db)
          else
            (.ok 200 "Report verification updated successfully",
              { db1 with verifications := db1.verifications ++ [verification] })

/-- The JSON body of `POST /api/update-progress`; `none` = key absent. -/
structure ProgressRequest where
  report_id : Option String
  status : Option String
deriving Repr, DecidableEq

/-- `update_progress` (after `staff_required`).  This route has no
`try/except`: `KeyError` (missing field), `AttributeError` (owner row
missing) and commit-time `DataError` (invalid enum value, MySQL strict
mode) all escape uncaught, rolling the pending session back. -/
def update_progress (db : DB) (data : ProgressRequest) : HttpResult × DB :=
  match data.report_id with
  | none => (.raised "KeyError: report_id", db)
  | some rid =>
    match findReport db rid with
    | none => (.jsonError 404 "Report not found", db)
    | some report =>
      match data.status with
      | none => (.raised "KeyError: status", db)
      | some st =>
        let dbS := { db with reports := setFirstReportStatus db.reports rid st }
        if st == "COMPLETED" then
          -- Completion bonus: `user.credits += 5`, no `if user` guard.
          match findUser db report.user_id with
          | none => (.raised "AttributeError: credits of None", db)
          | some _ =>
            -- "COMPLETED" is in the enum domain, so the commit succeeds.
            (.ok 200 "Progress updated successfully",
              { dbS with users := creditFirstUser dbS.users report.user_id 5 })
        else
          if statusEnum.contains st then
            (.ok 200 "Progress updated successfully", dbS)
          else (.raised "DataError: invalid status enum value", db)

/-- One element of the `public_reports` JSON list: exactly the keys the
route emits — no username and no image URL. -/
structure PublicReportEntry where
  report_id : String
  description : Option String
  location_name : Option String
  severity : Option String
  status : String
  latitude : Option Rat
  longitude : Option Rat
deriving Repr, DecidableEq

/-- The dict built for one report inside `public_reports`. -/
def toPublicEntry (r : Report) : PublicReportEntry :=
  { report_id := r.report_id
    description := r.description
    location_name := r.location_name
    severity := r.severity
    status := r.status
    latitude := r.latitude
    longitude := r.longitude }

/-- The statuses `public_reports` filters on. -/
def publicStatuses : List String := ["VERIFIED", "IN_PROGRESS", "COMPLETED"]

/-- `GET /api/public-reports`: unauthenticated, filters on
`status.in_(['VERIFIED','IN_PROGRESS','COMPLETED'])`. -/
def public_reports (db : DB) : List PublicReportEntry :=
  (db.reports.filter (fun r => publicStatuses.contains r.status)).map toPublicEntry

/-- Rename every user's username; `public_reports` never reads it. -/
def renameUsers (db : DB) (f : String → String) : DB :=
  { db with users := db.users.map (fun u => { u with username := f u.username }) }

/-- Outcome of `s3_client.generate_presigned_url`. -/
inductive PresignOutcome where
  | success (url : String)
  | failure
deriving Repr, DecidableEq

/-- `GET /image/<s3_key>`: the whole body is in `try/except`, so a
presigning failure becomes a JSON 404, never an uncaught escape. -/
def serve_image (o : PresignOutcome) : HttpResult :=
  match o with
  | .success url => .ok 302 url
  | .failure => .jsonError 404 "Image not found"

/-- The JSON body of `POST /create-staff-user`; `none` = key absent
(`data[k]` raises `KeyError`, uncaught — the route has no `try`). -/
structure StaffUserRequest where
  username : Option String
  email : Option String
  password : Option String
deriving Repr, DecidableEq

/-- `db.session.commit()` of a `custom_user` INSERT: MySQL enforces
UNIQUE(username), UNIQUE(email), UNIQUE(user_id); `none` is an
`IntegrityError`. -/
def insertUser (db : DB) (u : User) : Option DB :=
  if db.users.any (fun v => v.username == u.username) then none
  else if db.users.any (fun v => v.email == u.email) then none
  else if db.users.any (fun v => v.user_id == u.user_id) then none
  else some { db with users := db.users ++ [u] }

/-- `POST /create-staff-user`: no `login_required`, no `staff_required`,
no session read at all.  The only application-layer duplicate check is
on username; the email duplicate is only stopped by the UNIQUE
constraint at commit, whose `IntegrityError` escapes uncaught.
`freshUuid` is the uuid4 default of `user_id`, `hash` the salted
`generate_password_hash` output. -/
def create_staff_user (db : DB) (data : StaffUserRequest)
    (freshUuid : String) (hash : String) : HttpResult × DB :=
  match data.username with
  | none => (.raised "KeyError: username", db)
  | some uname =>
    if (findUserByUsername db uname).isSome then
      (.jsonError 400 "Username already exists", db)
    else
      match data.email with
      | none => (.raised "KeyError: email", db)
      | some em =>
        match data.password with
        | none => (.raised "KeyError: password", db)
        | some _ =>
          let user : User :=
            { user_id := freshUuid
              username := uname
              email := em
              phone_number := none
              password_hash := hash
              credits := 0
              is_staff := true }
          match insertUser db user with
          | none => (.raised "IntegrityError: duplicate key", db)
          | some db' => (.ok 201 "Staff user created successfully", db')

/-! ### List lemmas about the first-match update helpers -/

/-- `find?` is `isSome` exactly when `any` holds. -/
theorem find?_isSome_eq_any {α : Type} (p : α → Bool) (l : List α) :
    (l.find? p).isSome = l.any p := by
  induction l with
  | nil => rfl
  | cons a t ih =>
    by_cases h : p a = true
    · simp [h]
    · have h' : p a = false := by simpa using h
      simp [h', ih]

/-- Crediting the first user matching `uid` makes `find?` on `uid` return
that user with `d` more credits. -/
theorem find?_creditFirstUser_self (us : List User) (uid : String) (d : Int)
    (u : User) (h : us.find? (fun v => v.user_id == uid) = some u) :
    (creditFirstUser us uid d).find? (fun v => v.user_id == uid)
      = some { u with credits := u.credits + d } := by
  induction us with
  | nil => simp at h
  | cons a rest ih =>
    by_cases ha : (a.user_id == uid) = true
    · simp [ha] at h
      subst h
      simp [creditFirstUser, ha]
    · have ha' : (a.user_id == uid) = false := by simpa using ha
      simp [ha'] at h
      simpa [creditFirstUser, ha'] using ih h

/-- Crediting the first user matching `uid` leaves `find?` on any other
id unchanged. -/
theorem find?_creditFirstUser_other (us : List User) (uid uid2 : String)
    (d : Int) (hne : (uid2 == uid) = false) :
    (creditFirstUser us uid d).find? (fun v => v.user_id == uid2)
      = us.find? (fun v => v.user_id == uid2) := by
  induction us with
  | nil => rfl
  | cons a rest ih =>
    by_cases ha : (a.user_id == uid) = true
    · have h1 : a.user_id = uid := by simpa using ha
      have ha2 : (a.user_id == uid2) = false := by
        rw [h1]
        have : ¬ uid2 = uid := by simpa using hne
        simp [BEq.beq]
        intro hq
        exact absurd hq.symm this
      simp [creditFirstUser, ha, ha2]
    · have ha' : (a.user_id == uid) = false := by simpa using ha
      by_cases hb : (a.user_id == uid2) = true
      · simp [creditFirstUser, ha', hb]
      · have hb' : (a.user_id == uid2) = false := by simpa using hb
        simp [creditFirstUser, ha', hb', ih]

/-- Setting the status of the first report matching `rid` makes `find?`
on `rid` return that report with the new status. -/
theorem find?_setFirstReportStatus_self (rs : List Report) (rid st : String)
    (r : Report) (h : rs.find? (fun x => x.report_id == rid) = some r) :
    (setFirstReportStatus rs rid st).find? (fun x => x.report_id == rid)
      = some { r with status := st } := by
  induction rs with
  | nil => simp at h
  | cons a rest ih =>
    by_cases ha : (a.report_id == rid) = true
    · simp [ha] at h
      subst h
      simp [setFirstReportStatus, ha]
    · have ha' : (a.report_id == rid) = false := by simpa using ha
      simp [ha'] at h
      simpa [setFirstReportStatus, ha'] using ih h

/-! ### Concrete sample data for witnesses and counterexamples -/

/-- A sample citizen user. -/
def uAlice : User :=
  { user_id := "uid-alice"
    username := "alice"
    email := "alice@example.com"
    phone_number := none
    password_hash := "h"
    credits := 0
    is_staff := false }

/-- A sample pending report owned by `uAlice`. -/
def rOne : Report :=
  { report_id := "rid-1"
    user_id := "uid-alice"
    image_url := "http://host/image/k1"
    s3_bucket_path := "k1"
    description := some "deep pothole"
    location_name := some "Main St"
    latitude := none
    longitude := none
    severity := some "HIGH"
    status := "PENDING"
    credits_awarded := 5 }

/-- A sample verified report owned by `uAlice`. -/
def rTwo : Report :=
  { rOne with report_id := "rid-2", status := "VERIFIED" }

/-- A sample database with one user and two reports. -/
def dbOne : DB :=
  { users := [uAlice], reports := [rOne, rTwo], verifications := [] }

/-- A well-formed submission request. -/
def reqGood : ReportRequest :=
  { hasImageField := true
    imageFilename := "p.jpg"
    description := some "crack"
    location_name := some "Elm St"
    latitude := none
    longitude := none
    severity := some "LOW" }

/-- A submission request whose latitude form string does not parse as a
float (for example the literal string `abc`). -/
def reqBadLat : ReportRequest :=
  { reqGood with latitude := some (.invalid "abc") }

/-! ### Claim C4 -/

/-- C4 counterexample: an upload failing with an exception other than
`NoCredentialsError` — for example the connectivity failure the spec
itself names — is not caught by `upload_to_s3`'s except clause and
escapes `report_pothole` uncaught: the route does not return the
`UploadFailed` JSON error body for this upload failure (it still
persists nothing). -/
theorem C4_counterexample :
    report_pothole dbOne "uid-alice" reqGood
        (.otherFailure "EndpointConnectionError") "f" "rid-new"
      = (.raised "EndpointConnectionError", dbOne) := by
  rfl

/-- C4 (amended): for a submission carrying an image field and a
non-empty filename — when the upload fails with `NoCredentialsError`
(the one exception `upload_to_s3` handles), `report_pothole` returns the
`UploadFailed` JSON 500; when the upload fails with any other exception,
that exception escapes the route uncaught instead; in both cases no
report row is persisted and no credit balance changes — the returned
state is exactly the input state (all-or-nothing submission holds for
every failure mode, the UploadFailed body only for the credential
one). -/
theorem C4_upload_failure (db : DB) (uid : String) (req : ReportRequest)
    (fn rid exc : String)
    (himg : req.hasImageField = true)
    (hfn : (req.imageFilename == "") = false) :
    report_pothole db uid req .noCredentials fn rid
      = (.jsonError 500 "Failed to upload image", db)
  ∧ report_pothole db uid req (.otherFailure exc) fn rid
      = (.raised exc, db) := by
  constructor <;> simp [report_pothole, himg, hfn, upload_to_s3]

/-- C4 witness: both upload-failure modes applied to a concrete state
and request. -/
theorem C4_upload_failure_witness :
    report_pothole dbOne "uid-alice" reqGood .noCredentials "f" "rid-new"
      = (.jsonError 500 "Failed to upload image", dbOne)
    ∧ report_pothole dbOne "uid-alice" reqGood (.otherFailure "boom") "f"
        "rid-new"
      = (.raised "boom", dbOne) :=
  C4_upload_failure dbOne "uid-alice" reqGood "f" "rid-new" "boom"
    (by decide) (by decide)

/-! ### Claim C3 -/

/-- C3: `public_reports` returns exactly the reports whose status is one
of VERIFIED, IN_PROGRESS, COMPLETED (projected through `toPublicEntry`),
never an entry with status PENDING or REJECTED, and its output is
independent of every username in the database (its entries carry no
owner username). -/
theorem C3_public_reports (db : DB) :
    (∀ e, e ∈ public_reports db ↔
        ∃ r, r ∈ db.reports ∧ publicStatuses.contains r.status = true
          ∧ e = toPublicEntry r)
  ∧ (∀ e, e ∈ public_reports db → e.status ≠ "PENDING" ∧ e.status ≠ "REJECTED")
  ∧ (∀ f, public_reports (renameUsers db f) = public_reports db) := by
  refine ⟨?_, ?_, fun f => rfl⟩
  · intro e
    simp only [public_reports, List.mem_map, List.mem_filter]
    constructor
    · rintro ⟨r, ⟨hr, hs⟩, rfl⟩
      exact ⟨r, hr, hs, rfl⟩
    · rintro ⟨r, hr, hs, rfl⟩
      exact ⟨r, ⟨hr, hs⟩, rfl⟩
  · intro e he
    simp only [public_reports, List.mem_map, List.mem_filter] at he
    obtain ⟨r, ⟨_, hs⟩, rfl⟩ := he
    have hmem : r.status ∈ publicStatuses := by
      simpa using hs
    simp only [publicStatuses, List.mem_cons, List.not_mem_nil, or_false]
      at hmem
    show r.status ≠ "PENDING" ∧ r.status ≠ "REJECTED"
    rcases hmem with h | h | h <;>
      · rw [h]
        exact ⟨by decide, by decide⟩

/-- C3 witness: the characterisation applied to a concrete database puts
the VERIFIED report `rTwo` in the public list. -/
theorem C3_public_reports_witness :
    toPublicEntry rTwo ∈ public_reports dbOne :=
  ((C3_public_reports dbOne).1 (toPublicEntry rTwo)).mpr
    ⟨rTwo, by decide, by decide, rfl⟩

/-! ### Claim C1 -/

/-- C1 counterexample: a request with a non-empty image whose upload
succeeds, but whose latitude form string does not parse as a float,
makes `float()` raise after the upload; no report row is created, no
credits are granted, the state is returned unchanged — yet all of the
claim's hypotheses (authenticated session of an existing user, non-empty
image, successful upload) hold. -/
theorem C1_counterexample :
    report_pothole dbOne "uid-alice" reqBadLat .success "f" "rid-new"
      = (.raised "ValueError: could not convert string to float: abc", dbOne) := by
  rfl

/-- C1 (amended): for an authenticated session of an existing user and a
submission request carrying a non-empty image, a severity from the enum
domain, and latitude/longitude fields that are absent or parse as
floats, when the upload succeeds and the generated report id is fresh,
`report_pothole` appends exactly one report row — with status PENDING,
the request's severity, credits_awarded 5 — and raises the submitting
user's credit balance by exactly 5, leaving every other user's balance
and the verification table unchanged. -/
theorem C1_report_pothole (db : DB) (uid : String) (req : ReportRequest)
    (fn rid : String) (u : User) (lat lon : Option Rat) (sev : String)
    (himg : req.hasImageField = true)
    (hfn : (req.imageFilename == "") = false)
    (hlat : parseCoord req.latitude = .ok lat)
    (hlon : parseCoord req.longitude = .ok lon)
    (hsev : req.severity = some sev)
    (hsevEnum : severityEnum.contains sev = true)
    (huser : findUser db uid = some u)
    (hfresh : (db.reports.any (fun r => r.report_id == rid)) = false) :
    (report_pothole db uid req .success fn rid).1 = .ok 201 rid
  ∧ (report_pothole db uid req .success fn rid).2.reports
      = db.reports
        ++ [builtReport uid req ("pothole-images/" ++ (fn ++ "_" ++ req.imageFilename)) rid lat lon]
  ∧ (builtReport uid req ("pothole-images/" ++ (fn ++ "_" ++ req.imageFilename)) rid lat lon).status
      = "PENDING"
  ∧ (builtReport uid req ("pothole-images/" ++ (fn ++ "_" ++ req.imageFilename)) rid lat lon).severity
      = some sev
  ∧ (builtReport uid req ("pothole-images/" ++ (fn ++ "_" ++ req.imageFilename)) rid lat lon).credits_awarded
      = 5
  ∧ (report_pothole db uid req .success fn rid).2.verifications = db.verifications
  ∧ findUser (report_pothole db uid req .success fn rid).2 uid
      = some { u with credits := u.credits + 5 }
  ∧ ∀ uid2, (uid2 == uid) = false →
      findUser (report_pothole db uid req .success fn rid).2 uid2 = findUser db uid2 := by
  have heq : report_pothole db uid req .success fn rid
      = (.ok 201 rid,
         { db with
             reports := db.reports
               ++ [builtReport uid req ("pothole-images/" ++ (fn ++ "_" ++ req.imageFilename)) rid lat lon]
             users := creditFirstUser db.users uid 5 }) := by
    have hmem : sev ∈ severityEnum := by simpa using hsevEnum
    simp [report_pothole, himg, hfn, upload_to_s3, hlat, hlon, hsev, hsevEnum,
      hmem, huser, hfresh]
  refine ⟨by rw [heq], by rw [heq], rfl, by simp [builtReport, hsev], rfl,
    by rw [heq], ?_, ?_⟩
  · rw [heq]
    exact find?_creditFirstUser_self db.users uid 5 u huser
  · intro uid2 h2
    rw [heq]
    exact find?_creditFirstUser_other db.users uid uid2 5 h2

/-- C1 witness: the amended submission theorem applied to a concrete
state and request. -/
theorem C1_report_pothole_witness :
    (report_pothole dbOne "uid-alice" reqGood .success "f" "rid-new").1
      = .ok 201 "rid-new"
    ∧ findUser (report_pothole dbOne "uid-alice" reqGood .success "f" "rid-new").2
        "uid-alice"
      = some { uAlice with credits := uAlice.credits + 5 } := by
  have h := C1_report_pothole dbOne "uid-alice" reqGood "f" "rid-new" uAlice
    none none "LOW" (by decide) (by decide) (by rfl) (by rfl) (by rfl)
    (by decide) (by rfl) (by decide)
  exact ⟨h.1, h.2.2.2.2.2.2.1⟩

/-! ### Claim C2 -/

/-- A well-formed approve request for report `rid-1`. -/
def vreqApprove : VerifyRequest :=
  { report_id := some "rid-1"
    action := some "approve"
    verified_by := some "inspector"
    notes := some "confirmed"
    estimated_repair_date := none }

/-- C2: for a staff `verify_report` call carrying a report id — an
unknown id yields a 404 with the state unchanged; on an existing report,
approve sets status VERIFIED and adds exactly 10 credits to the owning
user (leaving every other user unchanged), reject sets REJECTED and
need_info sets PENDING, both without touching any credit balance. -/
theorem C2_verify_report (db : DB) (sess : Option String) (d : VerifyRequest)
    (rid : String) (hrid : d.report_id = some rid) :
    (findReport db rid = none →
        verify_report db sess (some d) false
          = (.jsonError 404 "Report not found", db))
  ∧ (∀ report u, findReport db rid = some report →
        d.action = some "approve" → findUser db report.user_id = some u →
        (verify_report db sess (some d) false).1
          = .ok 200 "Report verification updated successfully"
        ∧ findReport (verify_report db sess (some d) false).2 rid
            = some { report with status := "VERIFIED" }
        ∧ findUser (verify_report db sess (some d) false).2 report.user_id
            = some { u with credits := u.credits + 10 }
        ∧ ∀ uid2, (uid2 == report.user_id) = false →
            findUser (verify_report db sess (some d) false).2 uid2
              = findUser db uid2)
  ∧ (∀ report, findReport db rid = some report → d.action = some "reject" →
        (verify_report db sess (some d) false).1
          = .ok 200 "Report verification updated successfully"
        ∧ findReport (verify_report db sess (some d) false).2 rid
            = some { report with status := "REJECTED" }
        ∧ (verify_report db sess (some d) false).2.users = db.users)
  ∧ (∀ report, findReport db rid = some report → d.action = some "need_info" →
        (verify_report db sess (some d) false).1
          = .ok 200 "Report verification updated successfully"
        ∧ findReport (verify_report db sess (some d) false).2 rid
            = some { report with status := "PENDING" }
        ∧ (verify_report db sess (some d) false).2.users = db.users) := by
  refine ⟨?_, ?_, ?_, ?_⟩
  · intro h404
    simp [verify_report, hrid, h404]
  · intro report u hrep hact hu
    have heq : verify_report db sess (some d) false
        = (.ok 200 "Report verification updated successfully",
           { users := creditFirstUser db.users report.user_id 10
             reports := setFirstReportStatus db.reports rid "VERIFIED"
             verifications := db.verifications
               ++ [builtVerification sess d report.report_id "approve"] }) := by
      simp [verify_report, hrid, hrep, hact, hu]
    rw [heq]
    refine ⟨rfl, ?_, ?_, ?_⟩
    · exact find?_setFirstReportStatus_self db.reports rid "VERIFIED" report hrep
    · exact find?_creditFirstUser_self db.users report.user_id 10 u hu
    · intro uid2 h2
      exact find?_creditFirstUser_other db.users report.user_id uid2 10 h2
  · intro report hrep hact
    have heq : verify_report db sess (some d) false
        = (.ok 200 "Report verification updated successfully",
           { users := db.users
             reports := setFirstReportStatus db.reports rid "REJECTED"
             verifications := db.verifications
               ++ [builtVerification sess d report.report_id "reject"] }) := by
      simp [verify_report, hrid, hrep, hact]
    rw [heq]
    exact ⟨rfl,
      find?_setFirstReportStatus_self db.reports rid "REJECTED" report hrep, rfl⟩
  · intro report hrep hact
    have heq : verify_report db sess (some d) false
        = (.ok 200 "Report verification updated successfully",
           { users := db.users
             reports := setFirstReportStatus db.reports rid "PENDING"
             verifications := db.verifications
               ++ [builtVerification sess d report.report_id "need_info"] }) := by
      simp [verify_report, hrid, hrep, hact]
    rw [heq]
    exact ⟨rfl,
      find?_setFirstReportStatus_self db.reports rid "PENDING" report hrep, rfl⟩

/-- C2 witness: approving report `rid-1` in the concrete database
succeeds and pays its owner 10 credits. -/
theorem C2_verify_report_witness :
    (verify_report dbOne (some "staff") (some vreqApprove) false).1
      = .ok 200 "Report verification updated successfully"
    ∧ findUser (verify_report dbOne (some "staff") (some vreqApprove) false).2
        "uid-alice"
      = some { uAlice with credits := uAlice.credits + 10 } := by
  have h := (C2_verify_report dbOne (some "staff") vreqApprove "rid-1"
    (by rfl)).2.1 rOne uAlice (by rfl) (by rfl) (by rfl)
  exact ⟨h.1, h.2.2.1⟩

/-! ### Claim C5 -/

/-- C5: when creating the `MunicipalVerification` row fails after the
status (and any credit grant) was mutated in the pending transaction,
`verify_report` rolls the whole transaction back: the returned state is
exactly the input state and a JSON 500 is returned. -/
theorem C5_rollback (db : DB) (sess : Option String) (d : VerifyRequest)
    (rid a : String) (report : Report)
    (hrid : d.report_id = some rid) (hrep : findReport db rid = some report)
    (hact : d.action = some a) :
    verify_report db sess (some d) true
      = (.jsonError 500 "Failed to update report", db) := by
  simp [verify_report, hrid, hrep, hact]

/-- C5 witness: the rollback theorem applied to a concrete approve call
whose verification insert fails. -/
theorem C5_rollback_witness :
    verify_report dbOne (some "staff") (some vreqApprove) true
      = (.jsonError 500 "Failed to update report", dbOne) :=
  C5_rollback dbOne (some "staff") vreqApprove "rid-1" "approve" rOne
    (by rfl) (by rfl) (by rfl)

/-! ### Claim C7 -/

/-- C7: a `verify_report` call on an existing report (no insert failure)
appends exactly one `MunicipalVerification` row, whatever the action
and whichever status path executed, and its decision field is the
`action_mapping` image of the action — approve to APPROVED, reject to
REJECTED, need_info to NEED_INFO. -/
theorem C7_verification_record (db : DB) (sess : Option String)
    (d : VerifyRequest) (rid a : String) (report : Report)
    (hrid : d.report_id = some rid) (hrep : findReport db rid = some report)
    (hact : d.action = some a) :
    (verify_report db sess (some d) false).2.verifications
      = db.verifications ++ [builtVerification sess d report.report_id a]
  ∧ (builtVerification sess d report.report_id a).verification_status
      = actionMapping a
  ∧ actionMapping "approve" = "APPROVED"
  ∧ actionMapping "reject" = "REJECTED"
  ∧ actionMapping "need_info" = "NEED_INFO" := by
  refine ⟨?_, rfl, rfl, rfl, rfl⟩
  by_cases h1 : (a == "approve") = true
  · cases hfu : findUser db report.user_id with
    | none => simp [verify_report, hrid, hrep, hact, h1, hfu]
    | some u => simp [verify_report, hrid, hrep, hact, h1, hfu]
  · have h1' : (a == "approve") = false := by simpa using h1
    by_cases h2 : (a == "reject") = true
    · simp [verify_report, hrid, hrep, hact, h1', h2]
    · have h2' : (a == "reject") = false := by simpa using h2
      by_cases h3 : (a == "need_info") = true
      · simp [verify_report, hrid, hrep, hact, h1', h2', h3]
      · have h3' : (a == "need_info") = false := by simpa using h3
        simp [verify_report, hrid, hrep, hact, h1', h2', h3']

/-- C7 witness: the append theorem applied to a concrete approve call. -/
theorem C7_verification_record_witness :
    (verify_report dbOne (some "staff") (some vreqApprove) false).2.verifications
      = dbOne.verifications
        ++ [builtVerification (some "staff") vreqApprove "rid-1" "approve"]
    ∧ (builtVerification (some "staff") vreqApprove "rid-1"
        "approve").verification_status = "APPROVED" := by
  have h := C7_verification_record dbOne (some "staff") vreqApprove "rid-1"
    "approve" rOne (by rfl) (by rfl) (by rfl)
  exact ⟨h.1, h.2.1⟩

/-! ### Claim C9 -/

/-- A verify request whose action is not one of the three known ones. -/
def vreqBogus : VerifyRequest := { vreqApprove with action := some "escalate" }

/-- C9: a `verify_report` call on an existing report with an action
outside approve/reject/need_info changes neither any report's status nor
any credit balance, still appends one `MunicipalVerification` row whose
decision is the mapping's default APPROVED, and reports success. -/
theorem C9_unknown_action (db : DB) (sess : Option String) (d : VerifyRequest)
    (rid a : String) (report : Report)
    (hrid : d.report_id = some rid) (hrep : findReport db rid = some report)
    (hact : d.action = some a)
    (ha1 : (a == "approve") = false)
    (ha2 : (a == "reject") = false)
    (ha3 : (a == "need_info") = false) :
    verify_report db sess (some d) false
      = (.ok 200 "Report verification updated successfully",
         { db with verifications := db.verifications
             ++ [builtVerification sess d report.report_id a] })
    ∧ (builtVerification sess d report.report_id a).verification_status
        = "APPROVED" := by
  constructor
  · simp [verify_report, hrid, hrep, hact, ha1, ha2, ha3]
  · simp [builtVerification, actionMapping, ha1, ha2, ha3]

/-- C9 witness: a concrete call with action `escalate` leaves users and
reports untouched, appends an APPROVED verification row, and returns
success. -/
theorem C9_unknown_action_witness :
    verify_report dbOne (some "staff") (some vreqBogus) false
      = (.ok 200 "Report verification updated successfully",
         { dbOne with verifications := dbOne.verifications
             ++ [builtVerification (some "staff") vreqBogus "rid-1"
                   "escalate"] }) :=
  (C9_unknown_action dbOne (some "staff") vreqBogus "rid-1" "escalate" rOne
    (by rfl) (by rfl) (by rfl) (by decide) (by decide) (by decide)).1

/-! ### Claim C6 -/

/-- A progress request completing report `rid-1`. -/
def preqDone : ProgressRequest :=
  { report_id := some "rid-1", status := some "COMPLETED" }

/-- C6: `update_progress` with an enum status — an unknown report id
yields 404 with the state unchanged; on an existing report the status is
set to exactly the supplied value; when that value is COMPLETED the
owning user additionally gains exactly 5 credits, and for any other
value only the status changes. -/
theorem C6_update_progress (db : DB) (d : ProgressRequest) (rid st : String)
    (hrid : d.report_id = some rid) (hst : d.status = some st)
    (henum : statusEnum.contains st = true) :
    (findReport db rid = none →
        update_progress db d = (.jsonError 404 "Report not found", db))
  ∧ (∀ report u, findReport db rid = some report → st = "COMPLETED" →
        findUser db report.user_id = some u →
        (update_progress db d).1 = .ok 200 "Progress updated successfully"
        ∧ findReport (update_progress db d).2 rid
            = some { report with status := st }
        ∧ findUser (update_progress db d).2 report.user_id
            = some { u with credits := u.credits + 5 }
        ∧ (update_progress db d).2.verifications = db.verifications)
  ∧ (∀ report, findReport db rid = some report →
        (st == "COMPLETED") = false →
        update_progress db d
          = (.ok 200 "Progress updated successfully",
             { db with reports := setFirstReportStatus db.reports rid st })
        ∧ findReport (update_progress db d).2 rid
            = some { report with status := st }) := by
  refine ⟨?_, ?_, ?_⟩
  · intro h404
    simp [update_progress, hrid, h404]
  · intro report u hrep hC hu
    subst hC
    have heq : update_progress db d
        = (.ok 200 "Progress updated successfully",
           { users := creditFirstUser db.users report.user_id 5
             reports := setFirstReportStatus db.reports rid "COMPLETED"
             verifications := db.verifications }) := by
      simp [update_progress, hrid, hrep, hst, hu]
    rw [heq]
    exact ⟨rfl,
      find?_setFirstReportStatus_self db.reports rid "COMPLETED" report hrep,
      find?_creditFirstUser_self db.users report.user_id 5 u hu, rfl⟩
  · intro report hrep hne
    have hmem : st ∈ statusEnum := by simpa using henum
    have heq : update_progress db d
        = (.ok 200 "Progress updated successfully",
           { db with reports := setFirstReportStatus db.reports rid st }) := by
      simp [update_progress, hrid, hrep, hst, hne, henum, hmem]
    rw [heq]
    exact ⟨rfl,
      find?_setFirstReportStatus_self db.reports rid st report hrep⟩

/-- C6 witness: completing report `rid-1` in the concrete database
succeeds and pays its owner 5 credits. -/
theorem C6_update_progress_witness :
    (update_progress dbOne preqDone).1 = .ok 200 "Progress updated successfully"
    ∧ findUser (update_progress dbOne preqDone).2 "uid-alice"
        = some { uAlice with credits := uAlice.credits + 5 } := by
  have h := (C6_update_progress dbOne preqDone "rid-1" "COMPLETED" (by rfl)
    (by rfl) (by decide)).2.1 rOne uAlice (by rfl) (by rfl) (by rfl)
  exact ⟨h.1, h.2.2.1⟩

/-! ### Claim C8 -/

/-- C8 counterexample: an `update_progress` request without a
`report_id` key raises `KeyError` out of the route unconverted — the
route has no try/except, so this error is not turned into a JSON error
body at the route boundary. -/
theorem C8_counterexample :
    (update_progress dbOne { report_id := none, status := none }).1
      = .raised "KeyError: report_id" := by
  rfl

/-- C8 (amended): only `verify_report` and `serve_image` wrap their
bodies in try/except, so those two never let an exception escape; but
the conversion is not system-wide — `update_progress` (missing field,
missing owner) and `report_pothole` (latitude/longitude parsing) have
inputs on which an exception crosses the route boundary unconverted. -/
theorem C8_error_conversion (db : DB) (sess : Option String)
    (data : Option VerifyRequest) (flag : Bool) (o : PresignOutcome) :
    (verify_report db sess data flag).1.isRaised = false
  ∧ (serve_image o).isRaised = false
  ∧ (∃ db2 d2, (update_progress db2 d2).1.isRaised = true)
  ∧ (∃ db3 uid req s3 fn rid,
        (report_pothole db3 uid req s3 fn rid).1.isRaised = true) := by
  refine ⟨?_, ?_, ?_, ?_⟩
  · cases data with
    | none => rfl
    | some d =>
      cases hrid : d.report_id with
      | none => simp [verify_report, hrid, HttpResult.isRaised]
      | some rid =>
        cases hrep : findReport db rid with
        | none => simp [verify_report, hrid, hrep, HttpResult.isRaised]
        | some report =>
          cases hact : d.action with
          | none => simp [verify_report, hrid, hrep, hact, HttpResult.isRaised]
          | some a =>
            cases flag with
            | true =>
              simp [verify_report, hrid, hrep, hact, HttpResult.isRaised]
            | false =>
              simp [verify_report, hrid, hrep, hact, HttpResult.isRaised]
  · cases o with
    | success url => rfl
    | failure => rfl
  · exact ⟨dbOne, { report_id := none, status := none }, rfl⟩
  · exact ⟨dbOne, "uid-alice", reqBadLat, .success, "f", "rid-new", rfl⟩

/-! ### Claim C10 -/

/-- A staff-creation request with a fresh username but a duplicate
email. -/
def staffReqDupEmail : StaffUserRequest :=
  { username := some "newstaff"
    email := some "alice@example.com"
    password := some "pw" }

/-- A staff-creation request with a fresh username and a fresh email. -/
def staffReqFresh : StaffUserRequest :=
  { username := some "bob"
    email := some "bob@example.com"
    password := some "pw" }

/-- C10 counterexample: a request whose username is fresh but whose
email duplicates an existing user's makes the INSERT violate the email
UNIQUE constraint at commit: an IntegrityError escapes, no user row is
created, and the request does not succeed — contradicting the claim
that it creates the user and succeeds. -/
theorem C10_counterexample :
    create_staff_user dbOne staffReqDupEmail "uid-new" "h2"
      = (.raised "IntegrityError: duplicate key", dbOne) := by
  rfl

/-- C10 (amended): `create_staff_user` reads no session and checks no
staff privilege, and its only application-layer duplicate check is on
username: with a fresh username, a fresh email and a fresh uuid it
creates a user with the staff flag true and returns 201; with a fresh
username but a duplicated email there is no application-layer rejection
— instead the commit fails on the database's UNIQUE(email) constraint,
the error escapes unconverted, and no user is created. -/
theorem C10_create_staff_user (db : DB) (data : StaffUserRequest)
    (uname em pw uuid hash : String)
    (hu : data.username = some uname)
    (he : data.email = some em)
    (hp : data.password = some pw)
    (hun : (db.users.any (fun v => v.username == uname)) = false) :
    ((db.users.any (fun v => v.email == em)) = false →
       (db.users.any (fun v => v.user_id == uuid)) = false →
       create_staff_user db data uuid hash
         = (.ok 201 "Staff user created successfully",
            { db with users := db.users
                ++ [{ user_id := uuid, username := uname, email := em,
                      phone_number := none, password_hash := hash,
                      credits := 0, is_staff := true }] }))
  ∧ ((db.users.any (fun v => v.email == em)) = true →
       create_staff_user db data uuid hash
         = (.raised "IntegrityError: duplicate key", db)) := by
  have hfind : (findUserByUsername db uname).isSome = false := by
    rw [findUserByUsername, find?_isSome_eq_any]
    exact hun
  constructor
  · intro hem huid
    simp [create_staff_user, hu, he, hp, hfind, insertUser, hun, hem, huid]
  · intro hem
    simp [create_staff_user, hu, he, hp, hfind, insertUser, hun, hem]

/-- C10 witness: with fresh username, email and uuid, the concrete call
creates the staff user and returns 201 without any session input. -/
theorem C10_create_staff_user_witness :
    create_staff_user dbOne staffReqFresh "uid-bob" "h3"
      = (.ok 201 "Staff user created successfully",
         { dbOne with users := dbOne.users
             ++ [{ user_id := "uid-bob", username := "bob",
                   email := "bob@example.com", phone_number := none,
                   password_hash := "h3", credits := 0,
                   is_staff := true }] }) :=
  (C10_create_staff_user dbOne staffReqFresh "bob" "bob@example.com" "pw"
    "uid-bob" "h3" (by rfl) (by rfl) (by rfl) (by decide)).1
    (by decide) (by decide)
